import Mathlib

/-!
# GRAVITYchat — verification of the spec's claims against the source

Shallow embedding of the GRAVITYchat RAG pipeline (`app/main.py`,
`app/prompts.py`, `app/retriever.py`, `app/generator.py`,
`ingestion/zotero_sync.py`) and proofs of the frozen claims about it.

Python strings are modelled as Lean `String`s; the Python string methods the
code uses (`lower`, `split`, `strip`, the `in` substring test, `str.split(sep)`)
are re-implemented here over the character list `String.data`, so that every
definition is executable and faithful to CPython's behaviour on the ASCII
text this repository handles. Python lists are `List`, dict records are
structures, fallible code returns `Except`.
-/

set_option maxRecDepth 1000000

namespace GravityChat

/-! ## Python string primitives -/

/-- `chr.lower()` for one character: ASCII uppercase maps down by 32,
anything else is unchanged (all letters in this repository are ASCII). -/
def lowerChar (c : Char) : Char :=
  if 65 ≤ c.toNat ∧ c.toNat ≤ 90 then Char.ofNat (c.toNat + 32) else c

/-- Python `s.lower()`. -/
def pyLower (s : String) : String := ⟨s.data.map lowerChar⟩

/-- The characters Python's `str.split()` / `str.strip()` treat as whitespace
(the ASCII ones: space, tab, newline, carriage return, vertical tab, form feed). -/
def isSpace (c : Char) : Bool :=
  c = ' ' || c = '\t' || c = '\n' || c = '\r' || c = '\x0b' || c = '\x0c'

/-- Helper for `pySplitWs`: walk the characters, `acc` holding the current
token reversed. -/
def splitWsAux : List Char → List Char → List (List Char)
  | [], acc => if acc.isEmpty then [] else [acc.reverse]
  | c :: rest, acc =>
    if isSpace c then
      if acc.isEmpty then splitWsAux rest [] else acc.reverse :: splitWsAux rest []
    else splitWsAux rest (c :: acc)

/-- Python `s.split()` with no separator: split on whitespace runs, no empty
pieces. -/
def pySplitWs (s : String) : List String :=
  (splitWsAux s.data []).map String.mk

/-- Python's `needle in hay` substring test. -/
def strContains (hay needle : String) : Bool :=
  decide (needle.data <:+: hay.data)

/-- Python `s.strip()`: drop leading and trailing whitespace. -/
def pyStrip (s : String) : String :=
  ⟨((s.data.dropWhile isSpace).reverse.dropWhile isSpace).reverse⟩

/-- Helper for `pySplitOn`: scan left to right; at each position where `sep`
is next, close the current piece and continue after the non-overlapping
occurrence. `sep` is never empty in this development (Python raises on an
empty separator). The `fuel` argument only makes the recursion structural —
every step consumes at least one character, so fuel `s.length` never runs
out. -/
def pySplitOnAux (sep : List Char) : Nat → List Char → List Char → List (List Char)
  | _, [], acc => [acc.reverse]
  | 0, s, acc => [acc.reverse ++ s]
  | fuel + 1, c :: rest, acc =>
    if sep <+: (c :: rest) then
      acc.reverse :: pySplitOnAux sep fuel (rest.drop (sep.length - 1)) []
    else
      pySplitOnAux sep fuel rest (c :: acc)

/-- Python `s.split(sep)` for a non-empty separator: non-overlapping
occurrences from the left, keeping empty pieces (`"X".split("X") = ["", ""]`). -/
def pySplitOn (s sep : String) : List String :=
  (pySplitOnAux sep.data s.data.length s.data []).map String.mk

/-- Python's truthiness-based `x or default` for an optional string rendered
in an f-string: `None` and `""` are falsy. -/
def pyOrStr (x : Option String) (dflt : String) : String :=
  match x with
  | some s => if s = "" then dflt else s
  | none => dflt

/-- Python's truthiness-based `x or default` for an optional int rendered in
an f-string: `None` and `0` are falsy. -/
def pyOrInt (x : Option Int) (dflt : String) : String :=
  match x with
  | some n => if n = 0 then dflt else toString n
  | none => dflt

/-! ## app/main.py — the demo endpoint -/

/-- One entry of `MOCK_DOCUMENTS` in `app/main.py` (a plain dict there). -/
structure MockDoc where
  id : String
  content : String
  title : String
  authors : String
  url : String
  year : Int
  source : String
deriving Repr, DecidableEq

/-- `MOCK_DOCUMENTS` from `app/main.py`. -/
def MOCK_DOCUMENTS : List MockDoc :=
  [ { id := "mock-1"
    , content := "LIGO (Laser Interferometer Gravitational-Wave Observatory) is a large-scale physics experiment designed to detect cosmic gravitational waves. The observatory uses laser interferometry to measure the minute ripples in space-time caused by passing gravitational waves from cataclysmic cosmic events such as merging neutron stars or black holes."
    , title := "Introduction to LIGO"
    , authors := "LIGO Scientific Collaboration"
    , url := "https://www.ligo.org/science.php"
    , year := 2023
    , source := "LIGO Documentation" }
  , { id := "mock-2"
    , content := "Gravity Spy is a citizen science project that helps classify glitches in LIGO data. Volunteers examine spectrograms of gravitational wave detector noise to identify and categorize different types of instrumental artifacts that could interfere with gravitational wave detection."
    , title := "Gravity Spy Citizen Science"
    , authors := "Gravity Spy Team"
    , url := "https://www.zooniverse.org/projects/zooniverse/gravity-spy"
    , year := 2024
    , source := "Zooniverse" }
  , { id := "mock-3"
    , content := "aLOGs (LIGO Online Glitch Database) contain detailed information about instrumental glitches detected in LIGO data. These logs help scientists understand the sources of noise and improve detector sensitivity by identifying and mitigating systematic issues."
    , title := "Understanding aLOGs"
    , authors := "LIGO Detector Characterization Group"
    , url := "https://alog.ligo-wa.caltech.edu/"
    , year := 2023
    , source := "aLOG Database" } ]

/-- The keyword test shared by `get_mock_documents` (`app/main.py`) and
`DocumentRetriever._get_mock_documents` (`app/retriever.py`): some token of
the lowercased, whitespace-split query is a substring of the lowercased
content or of the lowercased title. -/
def keywordMatches (query : String) (content title : String) : Bool :=
  (pySplitWs (pyLower query)).any
    (fun kw => strContains (pyLower content) kw || strContains (pyLower title) kw)

/-- The retrieval loop both mock retrievers use: append each matching
document in iteration order, then slice `[:top_k]`. -/
def keywordFilter {α : Type} (content title : α → String)
    (docs : List α) (query : String) (top_k : Nat) : List α :=
  (docs.filter (fun d => keywordMatches query (content d) (title d))).take top_k

/-- `get_mock_documents` from `app/main.py`. -/
def get_mock_documents (query : String) (top_k : Nat) : List MockDoc :=
  keywordFilter MockDoc.content MockDoc.title MOCK_DOCUMENTS query top_k

/-- The canned LIGO paragraph of `generate_mock_response` (`app/main.py`). -/
def mainLigoAnswer : String :=
  "Based on the LIGO/Gravity Spy knowledge base, LIGO (Laser Interferometer Gravitational-Wave Observatory) is a large-scale physics experiment designed to detect cosmic gravitational waves. The observatory uses laser interferometry to measure minute ripples in space-time caused by passing gravitational waves from cataclysmic cosmic events such as merging neutron stars or black holes.\n\nLIGO consists of two identical detectors located in Livingston, Louisiana, and Hanford, Washington. Each detector uses laser interferometry to detect gravitational waves by measuring tiny changes in the length of 4-kilometer-long arms arranged in an L-shape."

/-- The canned Gravity Spy paragraph of `generate_mock_response`. -/
def mainGravitySpyAnswer : String :=
  "Gravity Spy is a citizen science project that helps classify glitches in LIGO data. Volunteers examine spectrograms of gravitational wave detector noise to identify and categorize different types of instrumental artifacts that could interfere with gravitational wave detection.\n\nThe project uses machine learning combined with human expertise to improve the classification of detector glitches, which helps scientists understand and mitigate sources of noise in the LIGO detectors."

/-- The canned aLOG/glitch paragraph of `generate_mock_response`. -/
def mainAlogAnswer : String :=
  "aLOGs (LIGO Online Glitch Database) contain detailed information about instrumental glitches detected in LIGO data. These logs help scientists understand the sources of noise and improve detector sensitivity by identifying and mitigating systematic issues.\n\nGlitches in LIGO data are instrumental artifacts that can interfere with gravitational wave detection. They can be caused by various sources including environmental factors, detector hardware issues, or external disturbances."

/-- The generic fallback answer of `generate_mock_response`, which echoes the
question. -/
def mainGenericAnswer (question : String) : String :=
  "Thank you for your question about '" ++ question ++ "'. Based on the available LIGO and Gravity Spy documentation, I can provide information about:\n\n• **LIGO Technology**: Gravitational wave detectors, interferometry, and sensitivity\n• **Gravity Spy**: Citizen science project for glitch classification  \n• **aLOGs**: LIGO Online Glitch Database for detector characterization\n• **Scientific Results**: Gravitational wave detections and astrophysics\n\nCould you please be more specific about what aspect you'd like to learn about?"

/-- `generate_mock_response` from `app/main.py`. The `documents` argument is
accepted and ignored, exactly as in the source. -/
def generate_mock_response (question : String) (_documents : List MockDoc) : String :=
  let ql := pyLower question
  if strContains ql "ligo" then mainLigoAnswer
  else if strContains ql "gravity spy" then mainGravitySpyAnswer
  else if strContains ql "alog" || strContains ql "glitch" then mainAlogAnswer
  else mainGenericAnswer question

/-- The `Citation` pydantic model of `app/main.py`. -/
structure Citation where
  title : String
  authors : Option String
  url : Option String
  year : Option Int
  source : String
deriving Repr, DecidableEq

/-- The `ChatResponse` pydantic model of `app/main.py`. -/
structure ChatResponse where
  answer : String
  citations : List Citation
  sources_used : Nat
  confidence : String
deriving Repr, DecidableEq

/-- How `ask_question` builds a `Citation` from a retrieved mock document. -/
def docToCitation (d : MockDoc) : Citation :=
  { title := d.title
  , authors := some d.authors
  , url := some d.url
  , year := some d.year
  , source := d.source }

/-- The fixed no-information answer of `ask_question`. -/
def noInfoAnswer : String :=
  "I couldn't find relevant information in our knowledge base to answer your question. Please try rephrasing your question or contact a LIGO scientist for assistance."

/-- The `POST /ask` handler `ask_question` of `app/main.py` for a validated
request: retrieve, branch on emptiness, generate, cite every retrieved
document. -/
def ask_question (question : String) (top_k : Nat) : ChatResponse :=
  let retrieved_docs := get_mock_documents question top_k
  if retrieved_docs.isEmpty then
    { answer := noInfoAnswer
    , citations := []
    , sources_used := 0
    , confidence := "low" }
  else
    { answer := generate_mock_response question retrieved_docs
    , citations := retrieved_docs.map docToCitation
    , sources_used := retrieved_docs.length
    , confidence := if 2 ≤ retrieved_docs.length then "high" else "medium" }

/-! ## app/prompts.py — prompt assembly and citation extraction -/

/-- The `DocumentChunk` pydantic model of `app/schemas.py`. The `score` field
models the optional dynamic attribute that `extract_citations` reads with
`getattr(doc, 'score', None)`; no code of this repository ever sets it, so it
defaults to `none`. Metadata is an association list of string entries, all
this repository stores there. -/
structure DocumentChunk where
  id : String
  content : String
  title : String
  authors : Option String := none
  url : Option String := none
  year : Option Int := none
  source : String
  chunk_index : Int
  metadata : List (String × String) := []
  score : Option ℚ := none
deriving Repr, DecidableEq

/-- One document body of `RAGPromptManager._format_retrieved_docs`: the
f-string for document number `i`, then `.strip()`. The `or` defaults follow
Python truthiness (`None` and empty/zero are falsy). -/
def formatDoc (i : Nat) (d : DocumentChunk) : String :=
  pyStrip ("\nDocument " ++ toString i ++ ":\nTitle: " ++ d.title ++
    "\nAuthors: " ++ pyOrStr d.authors "Unknown" ++
    "\nSource: " ++ d.source ++
    "\nYear: " ++ pyOrInt d.year "Unknown" ++
    "\nURL: " ++ pyOrStr d.url "Not available" ++
    "\n\nContent:\n" ++ d.content ++ "\n")

/-- `RAGPromptManager._format_retrieved_docs`: format each chunk with its
1-based position and join with one blank line. -/
def format_retrieved_docs (docs : List DocumentChunk) : String :=
  String.intercalate "\n\n" ((List.enumFrom 1 docs).map (fun p => formatDoc p.1 p.2))

/-- An f-string template: literal pieces and interpolated names. -/
inductive FStrPart where
  | lit : String → FStrPart
  | interp : String → FStrPart
deriving Repr, DecidableEq

/-- Evaluate an f-string left to right, resolving each interpolated name in
the given scope; an unresolvable name raises `NameError`, as in CPython, and
the leftmost failure wins. -/
def evalFString (scope : String → Option String) : List FStrPart → Except String String
  | [] => Except.ok ""
  | FStrPart.lit s :: rest => (evalFString scope rest).map (fun t => s ++ t)
  | FStrPart.interp n :: rest =>
    match scope n with
    | some v => (evalFString scope rest).map (fun t => v ++ t)
    | none => Except.error ("NameError: name '" ++ n ++ "' is not defined")

/-- The names visible inside `create_rag_prompts`' f-strings: the method's
locals `question` and `context_text`. `DATA_DELIMITER` is a class attribute
of `RAGPromptManager`; Python does not put class attributes in scope inside a
method body, and `app/prompts.py` defines no module-level `DATA_DELIMITER`,
so that name does not resolve. -/
def createRagPromptsScope (question context_text : String) : String → Option String
  | "question" => some question
  | "context_text" => some context_text
  | _ => none

/-- The user-prompt f-string of `create_rag_prompts` (`app/prompts.py`),
split into its literal pieces and interpolations. -/
def userPromptTemplate : List FStrPart :=
  [ FStrPart.lit "\nQuestion: "
  , FStrPart.interp "question"
  , FStrPart.lit "\n\nContext from LIGO/Gravity Spy knowledge base:\n"
  , FStrPart.interp "DATA_DELIMITER"
  , FStrPart.lit "\n"
  , FStrPart.interp "context_text"
  , FStrPart.lit "\n"
  , FStrPart.interp "DATA_DELIMITER"
  , FStrPart.lit "\n\nPlease answer the question using ONLY the provided context. If the context doesn't contain enough information to answer the question, please say so clearly.\n" ]

/-- The system-prompt f-string of `create_rag_prompts`, with its single
interpolation of `DATA_DELIMITER`. -/
def systemPromptTemplate : List FStrPart :=
  [ FStrPart.lit "\nYou are a LIGO scientist tasked with responding to citizen scientists with factual,\naccessible responses. These might be any questions about LIGO technology, scientific\nresults, or questions about citizen scientist tasks related to Zooniverse or Gravity Spy.\nYour goal is to help citizen scientists with factual responses to their questions that\nwill enable them to interpret Gravity Spy Glitches and their origins. Use clear, simple\nlanguage and avoid technical jargon to ensure accessibility. Translate acronyms to full\nwords based upon LIGO Abbreviations and Acronyms whenever possible.\n\nIMPORTANT INSTRUCTIONS:\n1. Answer ONLY using the provided context between the "
  , FStrPart.interp "DATA_DELIMITER"
  , FStrPart.lit " markers\n2. Always cite your sources using the format [text](url) for URLs\n3. If you reference a document, include the title and authors\n4. Use phrases like \"according to\" or \"as mentioned in\" when citing\n5. If the context doesn't contain enough information, clearly state this\n6. Expand acronyms when possible (e.g., LIGO = Laser Interferometer Gravitational-Wave Observatory)\n7. Maintain a neutral, informative tone\n8. Use \"some\" rather than \"all\" when referring to data to avoid extremes\n\nWhen generating summaries, format all URLs without hashtags following this format:\n[template_link_text](template_link_url).\n\nStructure responses logically, highlighting common or recent issues, and\nmaintain a neutral, informative tone. Phrase interpretations with rhetoric like\n\"an\" (as opposed to \"the\") and \"some\" as opposed to \"all\" when referring to the\ndata. This will avoid extremes when there is a lack of clarity.\n" ]

/-- `RAGPromptManager.create_rag_prompts`: compute the context text, then
evaluate the two f-strings and strip the results. Evaluating the user-prompt
f-string is where CPython raises. -/
def create_rag_prompts (question : String) (retrieved_docs : List DocumentChunk) :
    Except String (String × String) :=
  let context_text := format_retrieved_docs retrieved_docs
  let scope := createRagPromptsScope question context_text
  match evalFString scope userPromptTemplate with
  | Except.error e => Except.error e
  | Except.ok up =>
    match evalFString scope systemPromptTemplate with
    | Except.error e => Except.error e
    | Except.ok sp => Except.ok (pyStrip up, pyStrip sp)

/-- The citation dict `RAGPromptManager.extract_citations` builds per cited
chunk. -/
structure CitationDict where
  title : String
  authors : Option String
  url : Option String
  year : Option Int
  source : String
  relevance_score : Option ℚ
deriving Repr, DecidableEq

/-- One citation dict of `extract_citations`: fields copied from the chunk,
`relevance_score` from `getattr(doc, 'score', None)`. -/
def chunkCitation (d : DocumentChunk) : CitationDict :=
  { title := d.title
  , authors := d.authors
  , url := d.url
  , year := d.year
  , source := d.source
  , relevance_score := d.score }

/-- `RAGPromptManager.extract_citations`: keep, in input order, every chunk
whose lowercased title is a substring of the lowercased response. -/
def extract_citations (response : String) (retrieved_docs : List DocumentChunk) :
    List CitationDict :=
  (retrieved_docs.filter
      (fun d => strContains (pyLower response) (pyLower d.title))).map chunkCitation

/-! ## app/generator.py — fallback generation -/

/-- The "ligo" entry of the `mock_responses` table in
`ResponseGenerator._get_mock_response`. -/
def genLigoAnswer : String :=
  "LIGO (Laser Interferometer Gravitational-Wave Observatory) is a large-scale physics experiment designed to detect cosmic gravitational waves. The observatory uses laser interferometry to measure minute ripples in space-time caused by passing gravitational waves from cataclysmic cosmic events such as merging neutron stars or black holes."

/-- The "gravity spy" entry of `mock_responses`. -/
def genGravitySpyAnswer : String :=
  "Gravity Spy is a citizen science project that helps classify glitches in LIGO data. Volunteers examine spectrograms of gravitational wave detector noise to identify and categorize different types of instrumental artifacts that could interfere with gravitational wave detection."

/-- The "alog" entry of `mock_responses`. -/
def genAlogAnswer : String :=
  "aLOGs (LIGO Online Glitch Database) contain detailed information about instrumental glitches detected in LIGO data. These logs help scientists understand the sources of noise and improve detector sensitivity by identifying and mitigating systematic issues."

/-- The "glitch" entry of `mock_responses`. -/
def genGlitchAnswer : String :=
  "Glitches in LIGO data are instrumental artifacts that can interfere with gravitational wave detection. They can be caused by various sources including environmental factors, detector hardware issues, or external disturbances. Gravity Spy helps classify these glitches to improve data quality."

/-- The fixed `mock_responses` dict of `_get_mock_response`, in insertion
order (Python dicts iterate in insertion order). -/
def mockResponses : List (String × String) :=
  [ ("ligo", genLigoAnswer)
  , ("gravity spy", genGravitySpyAnswer)
  , ("alog", genAlogAnswer)
  , ("glitch", genGlitchAnswer) ]

/-- The prefix prepended to a matched canned answer. -/
def mockResponsePrefix : String := "Based on the LIGO/Gravity Spy knowledge base, "

/-- The question extraction of `_get_mock_response`:
`user_prompt.split("Question:")[1].split("\n")[0].strip()` when the marker is
present, else the placeholder. Note that `split("Question:")[1]` is the text
between the first and the second occurrence of the marker, so the extraction
stops at a second `"Question:"` even before any line break. -/
def extractQuestion (user_prompt : String) : String :=
  if strContains user_prompt "Question:" then
    pyStrip ((pySplitOn ((pySplitOn user_prompt "Question:").getD 1 "") "\n").headD "")
  else "your question"

/-- The generic fallback answer of `_get_mock_response`, echoing the
extracted question. -/
def genGenericAnswer (question : String) : String :=
  "Thank you for your question about '" ++ question ++ "'. Based on the available LIGO and Gravity Spy documentation, I can provide information about gravitational wave detection, detector technology, and citizen science opportunities. Could you please be more specific about what aspect you'd like to learn about?"

/-- `ResponseGenerator._get_mock_response`: extract the question, lowercase
it, return the first keyword match from the fixed table (prefixed), else the
generic answer. A pure function of `user_prompt`. -/
def _get_mock_response (user_prompt : String) : String :=
  let question := extractQuestion user_prompt
  let ql := pyLower question
  match mockResponses.find? (fun kv => strContains ql kv.1) with
  | some kv => mockResponsePrefix ++ kv.2
  | none => genGenericAnswer question

/-- The claim's wording of the extraction, for the refinement comparison
(this definition follows the claim/spec text, NOT the source): the extracted
question is the substring of `user_prompt` following the marker
`"Question:"` up to the next line break. -/
def extractQuestionSpec (user_prompt : String) : String :=
  if strContains user_prompt "Question:" then
    pyStrip ((pySplitOn
      (String.intercalate "Question:" ((pySplitOn user_prompt "Question:").drop 1))
      "\n").headD "")
  else "your question"

/-- The fallback as the claim words it: identical to `_get_mock_response`
except that the question runs to the next line break (`extractQuestionSpec`).
Used only to compare the claim's description against the code. -/
def mockResponseSpec (user_prompt : String) : String :=
  let question := extractQuestionSpec user_prompt
  let ql := pyLower question
  match mockResponses.find? (fun kv => strContains ql kv.1) with
  | some kv => mockResponsePrefix ++ kv.2
  | none => genGenericAnswer question

/-- A user prompt with two "Question:" markers before the first line break:
here the code's extraction stops at the second marker, while the claim's
description runs to the line break. -/
def doubleMarkerPrompt : String :=
  "Question: what is thisQuestion: ligo\nContext: none"

/-! ## app/retriever.py — retrieval with fallback -/

/-- One record returned by the search backend; `result.get(key, default)`
reads are modelled by optional fields, with the handler's defaults applied in
`recordToChunk`. -/
structure SearchRecord where
  id : Option String := none
  content : Option String := none
  title : Option String := none
  authors : Option String := none
  url : Option String := none
  year : Option Int := none
  source : Option String := none
  chunk_index : Option Int := none
  metadata : Option (List (String × String)) := none
deriving Repr, DecidableEq

/-- The per-result `DocumentChunk` construction in
`DocumentRetriever.retrieve_documents`, with its `result.get` defaults. -/
def recordToChunk (r : SearchRecord) : DocumentChunk :=
  { id := r.id.getD ""
  , content := r.content.getD ""
  , title := r.title.getD ""
  , authors := r.authors
  , url := r.url
  , year := r.year
  , source := r.source.getD "unknown"
  , chunk_index := r.chunk_index.getD 0
  , metadata := r.metadata.getD [] }

/-- The fixture list of `DocumentRetriever._get_mock_documents`
(`app/retriever.py`): same three documents as `MOCK_DOCUMENTS`, as
`DocumentChunk`s with `chunk_index = 1`. -/
def retrieverMockDocs : List DocumentChunk :=
  [ { id := "mock-1"
    , content := "LIGO (Laser Interferometer Gravitational-Wave Observatory) is a large-scale physics experiment designed to detect cosmic gravitational waves. The observatory uses laser interferometry to measure the minute ripples in space-time caused by passing gravitational waves from cataclysmic cosmic events such as merging neutron stars or black holes."
    , title := "Introduction to LIGO"
    , authors := some "LIGO Scientific Collaboration"
    , url := some "https://www.ligo.org/science.php"
    , year := some 2023
    , source := "LIGO Documentation"
    , chunk_index := 1 }
  , { id := "mock-2"
    , content := "Gravity Spy is a citizen science project that helps classify glitches in LIGO data. Volunteers examine spectrograms of gravitational wave detector noise to identify and categorize different types of instrumental artifacts that could interfere with gravitational wave detection."
    , title := "Gravity Spy Citizen Science"
    , authors := some "Gravity Spy Team"
    , url := some "https://www.zooniverse.org/projects/zooniverse/gravity-spy"
    , year := some 2024
    , source := "Zooniverse"
    , chunk_index := 1 }
  , { id := "mock-3"
    , content := "aLOGs (LIGO Online Glitch Database) contain detailed information about instrumental glitches detected in LIGO data. These logs help scientists understand the sources of noise and improve detector sensitivity by identifying and mitigating systematic issues."
    , title := "Understanding aLOGs"
    , authors := some "LIGO Detector Characterization Group"
    , url := some "https://alog.ligo-wa.caltech.edu/"
    , year := some 2023
    , source := "aLOG Database"
    , chunk_index := 1 } ]

/-- `DocumentRetriever._get_mock_documents`: the same keyword algorithm over
the fixture set, truncated to `top_k`. -/
def retriever_get_mock_documents (query : String) (top_k : Nat) : List DocumentChunk :=
  keywordFilter DocumentChunk.content DocumentChunk.title retrieverMockDocs query top_k

/-- `DocumentRetriever.retrieve_documents` with the backend call modelled as
the value of `self.search_client.search(...)`: a list of records, or an
exception. The `try` block converts results; the `except` block returns the
keyword fallback. The function is total — no outcome of the backend makes it
raise. -/
def retrieve_documents (backend : Except String (List SearchRecord))
    (query : String) (top_k : Nat) : List DocumentChunk :=
  match backend with
  | Except.ok results => results.map recordToChunk
  | Except.error _ => retriever_get_mock_documents query top_k

/-! ## ingestion/zotero_sync.py — ingestion filtering and chunking -/

/-- One creator entry of a Zotero item's `data.creators`. Absent string
fields read with `.get(k, "")` are the empty string. -/
structure ZCreator where
  creatorType : String := ""
  firstName : String := ""
  lastName : String := ""
deriving Repr, DecidableEq

/-- One attachment of a Zotero item: only its `data.contentType` is read. -/
structure ZAttachment where
  contentType : Option String := none
deriving Repr, DecidableEq

/-- The `data` dict of a Zotero item. Absent string fields are the empty
string, matching the code's `data.get(k, "")` reads; the only use of
`data.get("date")` treats `None` and `""` alike, so `date` is a string with
`""` for absent. -/
structure ZData where
  itemType : String := ""
  title : String := ""
  url : String := ""
  date : String := ""
  abstractNote : String := ""
  creators : List ZCreator := []
deriving Repr, DecidableEq

/-- A raw Zotero item: its key, `data` dict and attachment list. -/
structure ZItem where
  key : String := ""
  data : ZData := {}
  attachments : List ZAttachment := []
deriving Repr, DecidableEq

/-- The `valid_types` whitelist of `ZoteroIngestion._is_valid_item`. -/
def validItemTypes : List String :=
  ["journalArticle", "book", "bookSection", "report", "thesis", "document"]

/-- The PDF-attachment test of `_is_valid_item`. -/
def hasPdfAttachment (it : ZItem) : Bool :=
  it.attachments.any (fun a => a.contentType == some "application/pdf")

/-- `ZoteroIngestion._is_valid_item`, with the code's short-circuit order:
reject a type outside the whitelist, then an empty (stripped) title, then
accept iff there is a PDF attachment or a truthy (non-empty) URL. -/
def _is_valid_item (it : ZItem) : Bool :=
  if !(validItemTypes.contains it.data.itemType) then false
  else if pyStrip it.data.title = "" then false
  else hasPdfAttachment it || it.data.url ≠ ""

/-- `ZoteroIngestion._extract_authors`: creators whose role is "author" and
whose last name is truthy, rendered `"First Last"` and stripped, joined with
", "; "Unknown" when none qualify. -/
def _extract_authors (data : ZData) : String :=
  let authors :=
    (data.creators.filter (fun c => c.creatorType == "author" && c.lastName ≠ "")).map
      (fun c => pyStrip (c.firstName ++ " " ++ c.lastName))
  if authors.isEmpty then "Unknown" else String.intercalate ", " authors

/-- A processed Zotero item as `_process_zotero_item` builds it (`raw_data`,
which nothing downstream reads, is omitted). -/
structure ProcessedItem where
  id : String
  title : String
  authors : String
  year : Option String
  url : String
  abstract : String
  item_type : String
  source : String
deriving Repr, DecidableEq

/-- `ZoteroIngestion._process_zotero_item`: the year is
`data.get("date", "").split("-")[0]` — the text before the first "-" — when
the date is truthy, else `None`. -/
def _process_zotero_item (it : ZItem) : ProcessedItem :=
  { id := it.key
  , title := it.data.title
  , authors := _extract_authors it.data
  , year :=
      if it.data.date ≠ "" then
        some (String.mk (it.data.date.data.takeWhile (fun ch => ch ≠ '-')))
      else none
  , url := it.data.url
  , abstract := it.data.abstractNote
  , item_type := it.data.itemType
  , source := "Zotero" }

/-- The filter-and-process loop of `ZoteroIngestion.sync_zotero_items`
(lines 72–76): keep the valid items, in order, processed. -/
def processedItemsOf (items : List ZItem) : List ProcessedItem :=
  (items.filter _is_valid_item).map _process_zotero_item

/-- After the first digit of a CPython base-10 int literal: digits, with
single underscores allowed only between digits. -/
def digitsTail : List Char → Bool
  | [] => true
  | c :: rest =>
    if c = '_' then
      match rest with
      | [] => false
      | d :: rest2 => d.isDigit && digitsTail rest2
    else c.isDigit && digitsTail rest

/-- A non-empty CPython base-10 digit run (underscore-separated). -/
def pyIntDigits : List Char → Bool
  | [] => false
  | c :: rest => c.isDigit && digitsTail rest

/-- The numeric value of a digit run, ignoring underscores. -/
def digitsVal (l : List Char) : Nat :=
  l.foldl (fun acc c => if c = '_' then acc else acc * 10 + (c.toNat - 48)) 0

/-- CPython `int(s)` for base 10: strip whitespace, allow one sign, then a
non-empty digit run with single underscores between digits; anything else
raises `ValueError`, modelled as `none`. -/
def pyInt (s : String) : Option Int :=
  match (pyStrip s).data with
  | '+' :: rest => if pyIntDigits rest then some (digitsVal rest : Int) else none
  | '-' :: rest => if pyIntDigits rest then some (-(digitsVal rest : Int)) else none
  | l => if pyIntDigits l then some (digitsVal l : Int) else none

/-- The chunk a single processed item yields in
`ZoteroIngestion.create_document_chunks`, given its content and converted
year. -/
def mkZoteroChunk (p : ProcessedItem) (content : String) (yr : Option Int) :
    DocumentChunk :=
  { id := "zotero-" ++ p.id
  , content := content
  , title := p.title
  , authors := some p.authors
  , url := some p.url
  , year := yr
  , source := "Zotero"
  , chunk_index := 0
  , metadata :=
      [ ("item_type", p.item_type)
      , ("zotero_id", p.id)
      , ("abstract", p.abstract) ] }

/-- The labelled content sections of `create_document_chunks` for one item
(truthy fields only, in the code's fixed order), joined with blank lines. -/
def chunkContent (p : ProcessedItem) : String :=
  String.intercalate "\n\n"
    ((if p.title ≠ "" then ["Title: " ++ p.title] else []) ++
     (if p.authors ≠ "" then ["Authors: " ++ p.authors] else []) ++
     (if p.abstract ≠ "" then ["Abstract: " ++ p.abstract] else []) ++
     (match p.year with
      | some y => if y ≠ "" then ["Year: " ++ y] else []
      | none => []))

/-- The year conversion `int(item["year"]) if item.get("year") else None` in
`create_document_chunks`: `int()` raises `ValueError` on a non-numeric
string, and a falsy year (`None` or `""`) is passed through as `None`. -/
def yearConv : Option String → Except String (Option Int)
  | some y =>
    if y ≠ "" then
      match pyInt y with
      | some n => Except.ok (some n)
      | none => Except.error ("invalid literal for int() with base 10: '" ++ y ++ "'")
    else Except.ok none
  | none => Except.ok none

/-- The per-item body of `create_document_chunks`: assemble the content,
convert the year, build the chunk. -/
def create_chunk (p : ProcessedItem) : Except String DocumentChunk :=
  (yearConv p.year).map (fun yr => mkZoteroChunk p (chunkContent p) yr)

/-- `ZoteroIngestion.create_document_chunks`: one chunk per item, appended in
order; an exception while converting any item's year aborts the whole call,
so no chunks are produced for the batch. -/
def create_document_chunks (items : List ProcessedItem) :
    Except String (List DocumentChunk) :=
  items.mapM create_chunk

/-- The `item_type` recorded in a chunk's metadata. -/
def chunkItemType (c : DocumentChunk) : Option String :=
  (c.metadata.find? (fun q => q.1 == "item_type")).map Prod.snd

/-- `Except` bind on a success reduces to the continuation. -/
theorem exceptBindOk {α β : Type} (a : α) (f : α → Except String β) :
    (Except.ok a >>= f) = f a := rfl

/-- `Except` bind on an error keeps the error. -/
theorem exceptBindError {α β : Type} (e : String) (f : α → Except String β) :
    ((Except.error e : Except String α) >>= f) = Except.error e := rfl

/-- A successful `mapM` over `Except` sends every output element back to an
input element. -/
theorem mapM_ok_forall {α β : Type} (f : α → Except String β) :
    ∀ (l : List α) (out : List β), l.mapM f = Except.ok out →
      ∀ b ∈ out, ∃ a ∈ l, f a = Except.ok b := by
  intro l
  induction l with
  | nil =>
    intro out h b hb
    simp only [List.mapM_nil, pure] at h
    cases h
    simp at hb
  | cons a t ih =>
    intro out h b hb
    rw [List.mapM_cons] at h
    cases hfa : f a with
    | error e =>
      rw [hfa, exceptBindError] at h
      cases h
    | ok c =>
      rw [hfa, exceptBindOk] at h
      cases hft : t.mapM f with
      | error e =>
        rw [hft, exceptBindError] at h
        cases h
      | ok cs =>
        rw [hft, exceptBindOk] at h
        cases h
        rcases List.mem_cons.mp hb with hb1 | hb2
        · exact ⟨a, List.mem_cons_self a t, hb1 ▸ hfa⟩
        · obtain ⟨x, hx, hfx⟩ := ih cs hft b hb2
          exact ⟨x, List.mem_cons_of_mem a hx, hfx⟩

/-- If any input element fails, `mapM` over `Except` fails. -/
theorem mapM_error_of_mem {α β : Type} (f : α → Except String β) :
    ∀ (l : List α) (a : α), a ∈ l → (∃ e, f a = Except.error e) →
      ∃ e2, l.mapM f = Except.error e2 := by
  intro l
  induction l with
  | nil => intro a ha; cases ha
  | cons b t ih =>
    intro a ha ⟨e, he⟩
    rw [List.mapM_cons]
    cases hfb : f b with
    | error eb => exact ⟨eb, rfl⟩
    | ok c =>
      rcases List.mem_cons.mp ha with h1 | h2
      · subst h1
        rw [he] at hfb
        cases hfb
      · obtain ⟨e2, he2⟩ := ih a h2 ⟨e, he⟩
        refine ⟨e2, ?_⟩
        rw [exceptBindOk, he2, exceptBindError]

/-- Every `Except.ok` branch of `create_chunk` carries the item's
`item_type` in the chunk metadata. -/
theorem create_chunk_ok_metadata (p : ProcessedItem) (c : DocumentChunk)
    (h : create_chunk p = Except.ok c) : chunkItemType c = some p.item_type := by
  unfold create_chunk at h
  cases hyc : yearConv p.year with
  | error e =>
    rw [hyc] at h
    cases h
  | ok yr =>
    rw [hyc] at h
    cases h
    rfl

/-! ## Theorems for the claims -/

/-- C1: the claim says `create_rag_prompts` always returns a
`(user_prompt, system_prompt)` pair containing the question, the two `~~~`
delimiter lines and the "citizen scientists" phrase, and never fails. The
code disagrees: its f-strings reference the bare name `DATA_DELIMITER`, which
is a class attribute and so not in scope inside the method, so every call
raises `NameError` while evaluating the user prompt — this theorem proves
the failure for every question and every chunk list. -/
theorem create_rag_prompts_always_raises_name_error
    (question : String) (retrieved_docs : List DocumentChunk) :
    create_rag_prompts question retrieved_docs =
      Except.error "NameError: name 'DATA_DELIMITER' is not defined" := rfl

/-- C5: `extract_citations` cites a chunk iff its lowercased title is a
substring of the lowercased answer; citations keep the input chunk order
(filter-then-map over the input list) and `relevance_score` is copied from
the chunk's optional `score` attribute. -/
theorem extract_citations_title_substring_policy :
    (∀ (response : String) (docs : List DocumentChunk),
        extract_citations response docs =
          (docs.filter
            (fun d => strContains (pyLower response) (pyLower d.title))).map
            chunkCitation) ∧
    (∀ (response : String) (docs : List DocumentChunk) (c : CitationDict),
        c ∈ extract_citations response docs ↔
          ∃ d ∈ docs,
            (pyLower d.title).data <:+: (pyLower response).data ∧
            c = chunkCitation d) ∧
    (∀ (response : String) (d : DocumentChunk),
        strContains (pyLower response) (pyLower d.title) = true ↔
          (pyLower d.title).data <:+: (pyLower response).data) ∧
    (∀ d : DocumentChunk, (chunkCitation d).relevance_score = d.score) := by
  refine ⟨fun _ _ => rfl, ?_, ?_, fun _ => rfl⟩
  · intro response docs c
    simp only [extract_citations, List.mem_map, List.mem_filter, strContains,
      decide_eq_true_eq]
    constructor
    · rintro ⟨d, ⟨hd, hsub⟩, hc⟩
      exact ⟨d, hd, hsub, hc.symm⟩
    · rintro ⟨d, hd, hsub, hc⟩
      exact ⟨d, ⟨hd, hsub⟩, hc.symm⟩
  · intro response d
    simp [strContains]

/-- C3: every `POST /ask` response satisfies
`sources_used = citations.length`, and confidence is determined by
`sources_used`: 0 gives "low" with the fixed no-information answer and no
citations, 1 gives "medium", and 2 or more give "high". -/
theorem ask_question_confidence_invariant (question : String) (top_k : Nat) :
    ((ask_question question top_k).sources_used =
        (ask_question question top_k).citations.length) ∧
    ((ask_question question top_k).sources_used = 0 →
        (ask_question question top_k).confidence = "low" ∧
        (ask_question question top_k).answer = noInfoAnswer ∧
        (ask_question question top_k).citations = []) ∧
    ((ask_question question top_k).sources_used = 1 →
        (ask_question question top_k).confidence = "medium") ∧
    (2 ≤ (ask_question question top_k).sources_used →
        (ask_question question top_k).confidence = "high") := by
  unfold ask_question
  cases hd : get_mock_documents question top_k with
  | nil => simp
  | cons a t =>
    simp only [List.isEmpty_cons, Bool.false_eq_true, if_false, List.length_map,
      List.length_cons]
    refine ⟨by simp, fun h => absurd h (by omega), fun h1 => ?_, fun h2 => ?_⟩
    · have ht : t.length = 0 := by omega
      simp [ht]
    · rw [if_pos (by omega)]

/-- Witness for C3 at concrete requests: a no-match question gives "low", a
single-source retrieval gives "medium", and the three-source retrieval gives
"high". -/
theorem ask_question_confidence_invariant_witness :
    (ask_question "asdfqwerty nonsense" 5).confidence = "low" ∧
    (ask_question "What is LIGO?" 1).confidence = "medium" ∧
    (ask_question "What is LIGO?" 5).confidence = "high" :=
  ⟨((ask_question_confidence_invariant "asdfqwerty nonsense" 5).2.1 (by decide)).1,
   (ask_question_confidence_invariant "What is LIGO?" 1).2.2.1 (by decide),
   (ask_question_confidence_invariant "What is LIGO?" 5).2.2.2 (by decide)⟩

/-- C2 counterexample: the claim predicts `sources_used = 1` and
`confidence = "medium"` for the question "What is LIGO?" over the three
fixture documents; in the code the query token "is" is a substring of all
three fixture contents, so the pipeline returns three sources and "high". -/
theorem ask_what_is_ligo_not_single_source :
    (ask_question "What is LIGO?" 5).sources_used = 3 ∧
    ¬((ask_question "What is LIGO?" 5).sources_used = 1 ∧
      (ask_question "What is LIGO?" 5).confidence = "medium") := by
  decide

/-- C2 amended: the end-to-end run of "What is LIGO?" against the three
fixture documents yields `sources_used = 3`, `confidence = "high"`, and an
answer containing the substring "LIGO". -/
theorem ask_what_is_ligo_end_to_end :
    (ask_question "What is LIGO?" 5).sources_used = 3 ∧
    (ask_question "What is LIGO?" 5).confidence = "high" ∧
    strContains (ask_question "What is LIGO?" 5).answer "LIGO" = true := by
  decide

/-- C4: the mock retrieval is exactly keyword filtering — matching documents
in store order truncated to `top_k`, a document matching iff some lowercase
whitespace token of the query is a substring of its lowercased content or
title — and the empty query (no tokens) retrieves nothing from any document
set. `get_mock_documents` is this filter applied to the fixture store. -/
theorem keyword_retrieval_characterization :
    (∀ (docs : List MockDoc) (query : String) (k : Nat),
        keywordFilter MockDoc.content MockDoc.title docs query k =
          (docs.filter (fun d => keywordMatches query d.content d.title)).take k) ∧
    (∀ (query content title : String),
        keywordMatches query content title = true ↔
          ∃ tok ∈ pySplitWs (pyLower query),
            tok.data <:+: (pyLower content).data ∨
            tok.data <:+: (pyLower title).data) ∧
    (∀ (docs : List MockDoc) (k : Nat),
        keywordFilter MockDoc.content MockDoc.title docs "" k = []) ∧
    (∀ (query : String) (k : Nat),
        get_mock_documents query k =
          keywordFilter MockDoc.content MockDoc.title MOCK_DOCUMENTS query k) := by
  refine ⟨fun _ _ _ => rfl, ?_, ?_, fun _ _ => rfl⟩
  · intro query content title
    simp [keywordMatches, strContains]
  · intro docs k
    have hempty : ∀ d : MockDoc, keywordMatches "" d.content d.title = false := by
      intro d
      rfl
    simp [keywordFilter, hempty]

/-- C9: whenever retrieval is non-empty, the `/ask` handler cites every
retrieved document, one `Citation` per chunk in retrieval order with fields
copied by `docToCitation`; the answer text plays no role in the citation
list (in particular no title-substring test is applied on this endpoint). -/
theorem ask_question_cites_all_retrieved (question : String) (top_k : Nat) :
    (get_mock_documents question top_k ≠ [] →
        (ask_question question top_k).citations =
          (get_mock_documents question top_k).map docToCitation) ∧
    ((ask_question question top_k).citations.length =
        (ask_question question top_k).sources_used) := by
  unfold ask_question
  cases hd : get_mock_documents question top_k with
  | nil => simp
  | cons a t => simp

/-- Witness for C9: on "What is LIGO?" the citations are exactly the mapped
retrieved fixtures. -/
theorem ask_question_cites_all_retrieved_witness :
    (ask_question "What is LIGO?" 5).citations =
      (get_mock_documents "What is LIGO?" 5).map docToCitation :=
  (ask_question_cites_all_retrieved "What is LIGO?" 5).1 (by decide)

/-- C6 counterexample: on a prompt with two "Question:" markers before the
first line break, the code's extraction (between the first and second
markers) and the claim's extraction (up to the line break) give different
questions, and the generator's outputs diverge: the code answers generically
while the claim's description predicts the canned LIGO answer. -/
theorem mock_response_marker_counterexample :
    _get_mock_response doubleMarkerPrompt ≠ mockResponseSpec doubleMarkerPrompt ∧
    _get_mock_response doubleMarkerPrompt = genGenericAnswer "what is this" ∧
    mockResponseSpec doubleMarkerPrompt = mockResponsePrefix ++ genLigoAnswer := by
  decide

/-- C6 amended: the fallback is the pure function `_get_mock_response` of the
user prompt: the question is the stripped text after the first "Question:"
marker up to the next "Question:" marker or line break, whichever comes first
(placeholder when the marker is absent); the lowercased question is looked up
against the fixed table keyed "ligo", "gravity spy", "alog", "glitch" in that
order, a hit returning the prefixed canned answer, otherwise the generic
answer echoing the question. -/
theorem mock_response_fallback_cases (up : String) :
    (strContains up "Question:" = false → extractQuestion up = "your question") ∧
    (strContains (pyLower (extractQuestion up)) "ligo" = true →
        _get_mock_response up = mockResponsePrefix ++ genLigoAnswer) ∧
    (strContains (pyLower (extractQuestion up)) "ligo" = false →
     strContains (pyLower (extractQuestion up)) "gravity spy" = true →
        _get_mock_response up = mockResponsePrefix ++ genGravitySpyAnswer) ∧
    (strContains (pyLower (extractQuestion up)) "ligo" = false →
     strContains (pyLower (extractQuestion up)) "gravity spy" = false →
     strContains (pyLower (extractQuestion up)) "alog" = true →
        _get_mock_response up = mockResponsePrefix ++ genAlogAnswer) ∧
    (strContains (pyLower (extractQuestion up)) "ligo" = false →
     strContains (pyLower (extractQuestion up)) "gravity spy" = false →
     strContains (pyLower (extractQuestion up)) "alog" = false →
     strContains (pyLower (extractQuestion up)) "glitch" = true →
        _get_mock_response up = mockResponsePrefix ++ genGlitchAnswer) ∧
    (strContains (pyLower (extractQuestion up)) "ligo" = false →
     strContains (pyLower (extractQuestion up)) "gravity spy" = false →
     strContains (pyLower (extractQuestion up)) "alog" = false →
     strContains (pyLower (extractQuestion up)) "glitch" = false →
        _get_mock_response up = genGenericAnswer (extractQuestion up)) := by
  refine ⟨fun h => ?_, fun h1 => ?_, fun h1 h2 => ?_, fun h1 h2 h3 => ?_,
    fun h1 h2 h3 h4 => ?_, fun h1 h2 h3 h4 => ?_⟩
  · simp [extractQuestion, h]
  all_goals
    simp only [_get_mock_response, mockResponses, List.find?]
    simp_all

/-- Witness for C6's amended statement: a well-formed single-marker prompt
about LIGO gets the prefixed canned LIGO answer. -/
theorem mock_response_fallback_cases_witness :
    _get_mock_response "Question: Tell me about LIGO\nContext: none" =
      mockResponsePrefix ++ genLigoAnswer :=
  (mock_response_fallback_cases "Question: Tell me about LIGO\nContext: none").2.1
    (by decide)

/-- C8: `_is_valid_item` accepts an item iff its type is in the fixed
whitelist, its stripped title is non-empty, and it has a PDF attachment or a
non-empty URL; an item of type "webpage" is always rejected, whatever its
title or URL, and consequently no chunk produced by the sync-then-chunk
pipeline carries `item_type = "webpage"` in its metadata. -/
theorem is_valid_item_whitelist :
    (∀ it : ZItem,
        _is_valid_item it = true ↔
          (it.data.itemType ∈ validItemTypes ∧ pyStrip it.data.title ≠ "" ∧
           (hasPdfAttachment it = true ∨ it.data.url ≠ ""))) ∧
    (∀ it : ZItem, it.data.itemType = "webpage" → _is_valid_item it = false) ∧
    (∀ (items : List ZItem) (cs : List DocumentChunk),
        create_document_chunks (processedItemsOf items) = Except.ok cs →
          ∀ c ∈ cs, chunkItemType c ≠ some "webpage") := by
  have hiff : ∀ it : ZItem,
      _is_valid_item it = true ↔
        (it.data.itemType ∈ validItemTypes ∧ pyStrip it.data.title ≠ "" ∧
         (hasPdfAttachment it = true ∨ it.data.url ≠ "")) := by
    intro it
    unfold _is_valid_item
    cases h1 : validItemTypes.contains it.data.itemType with
    | false =>
      have hmem : it.data.itemType ∉ validItemTypes := by
        intro hm
        have hc : validItemTypes.contains it.data.itemType = true :=
          List.elem_iff.mpr hm
        rw [h1] at hc
        cases hc
      simp [hmem]
    | true =>
      have hmem : it.data.itemType ∈ validItemTypes := List.elem_iff.mp h1
      by_cases h2 : pyStrip it.data.title = ""
      · simp [h2, hmem]
      · simp [h2, hmem]
  refine ⟨hiff, fun it h => ?_, fun items cs h c hc => ?_⟩
  · cases hv : _is_valid_item it with
    | false => rfl
    | true =>
      have := (hiff it).mp hv
      rw [h] at this
      exact absurd this.1 (by decide)
  · obtain ⟨p, hp, hfc⟩ := mapM_ok_forall create_chunk _ _ h c hc
    obtain ⟨z, hz, hpz⟩ := List.mem_map.mp hp
    have hzv : _is_valid_item z = true := (List.mem_filter.mp hz).2
    have hty : z.data.itemType ∈ validItemTypes := ((hiff z).mp hzv).1
    have hnw : z.data.itemType ≠ "webpage" := by
      intro hw
      rw [hw] at hty
      exact absurd hty (by decide)
    have hmeta : chunkItemType c = some p.item_type :=
      create_chunk_ok_metadata p c hfc
    rw [hmeta, ← hpz]
    intro hcontra
    exact hnw (Option.some.inj hcontra)

/-- Witness for C8 at a concrete "webpage" item with a title and a URL: it is
rejected. -/
theorem is_valid_item_whitelist_witness :
    _is_valid_item
      { key := "w1"
      , data :=
        { itemType := "webpage"
        , title := "Some web page"
        , url := "https://example.org" }
      , attachments := [] } = false :=
  is_valid_item_whitelist.2.1 _ rfl

/-- C10: ingestion is not total in the year field. The processed year is the
date's text before the first "-" (`None` for a falsy date); chunking a
processed item whose year is absent or parses as a base-10 int yields exactly
one chunk with `chunk_index = 0` and `source = "Zotero"`, while a non-numeric
year makes the int conversion raise `ValueError`, and one such item aborts
the whole batch with no chunks. -/
theorem zotero_year_not_total (p : ProcessedItem) :
    (p.year = none →
        create_document_chunks [p] =
          Except.ok [mkZoteroChunk p (chunkContent p) none]) ∧
    (∀ y n, p.year = some y → pyInt y = some n →
        create_document_chunks [p] =
          Except.ok [mkZoteroChunk p (chunkContent p) (some n)]) ∧
    (∀ y, p.year = some y → y ≠ "" → pyInt y = none →
        create_document_chunks [p] =
          Except.error ("invalid literal for int() with base 10: '" ++ y ++ "'")) ∧
    (∀ yr : Option Int,
        (mkZoteroChunk p (chunkContent p) yr).chunk_index = 0 ∧
        (mkZoteroChunk p (chunkContent p) yr).source = "Zotero") ∧
    (∀ (items : List ProcessedItem) (y : String), p ∈ items → p.year = some y →
        y ≠ "" → pyInt y = none →
        ∃ msg, create_document_chunks items = Except.error msg) ∧
    (∀ it : ZItem,
        (_process_zotero_item it).year =
          if it.data.date ≠ "" then
            some (String.mk (it.data.date.data.takeWhile (fun ch => ch ≠ '-')))
          else none) := by
  have hsingle : ∀ (q : ProcessedItem),
      create_document_chunks [q] = (create_chunk q).map (fun c => [c]) := by
    intro q
    rw [create_document_chunks, List.mapM_cons, List.mapM_nil]
    cases hq : create_chunk q with
    | error e => rfl
    | ok c => rfl
  have yerr : ∀ y, y ≠ "" → pyInt y = none →
      yearConv (some y) =
        Except.error ("invalid literal for int() with base 10: '" ++ y ++ "'") := by
    intro y hne hpi
    simp [yearConv, hne, hpi]
  have yok : ∀ y n, pyInt y = some n → yearConv (some y) = Except.ok (some n) := by
    intro y n hpi
    have hne : y ≠ "" := by
      intro h
      rw [h] at hpi
      cases hpi
    simp [yearConv, hne, hpi]
  have herr : ∀ y, p.year = some y → y ≠ "" → pyInt y = none →
      create_chunk p =
        Except.error ("invalid literal for int() with base 10: '" ++ y ++ "'") := by
    intro y hy hne hpi
    unfold create_chunk
    rw [hy, yerr y hne hpi]
    rfl
  refine ⟨fun h => ?_, fun y n hy hpi => ?_, fun y hy hne hpi => ?_,
    fun yr => ⟨rfl, rfl⟩, fun items y hmem hy hne hpi => ?_, fun it => rfl⟩
  · rw [hsingle]
    unfold create_chunk
    rw [h]
    rfl
  · rw [hsingle]
    unfold create_chunk
    rw [hy, yok y n hpi]
    rfl
  · rw [hsingle, herr y hy hne hpi]
    rfl
  · exact mapM_error_of_mem create_chunk items p hmem
      ⟨_, herr y hy hne hpi⟩

/-- Witness for C10: a numeric year "2024" yields a single `chunk_index = 0`,
`source = "Zotero"` chunk, and the year "March 2024" aborts the batch with
the `ValueError` message. -/
theorem zotero_year_not_total_witness :
    create_document_chunks
        [{ id := "a1", title := "T1", authors := "Unknown", year := some "2024"
         , url := "", abstract := "", item_type := "journalArticle"
         , source := "Zotero" }] =
      Except.ok
        [mkZoteroChunk
          { id := "a1", title := "T1", authors := "Unknown", year := some "2024"
          , url := "", abstract := "", item_type := "journalArticle"
          , source := "Zotero" }
          (chunkContent
            { id := "a1", title := "T1", authors := "Unknown", year := some "2024"
            , url := "", abstract := "", item_type := "journalArticle"
            , source := "Zotero" })
          (some 2024)] ∧
    create_document_chunks
        [{ id := "a2", title := "T2", authors := "Unknown"
         , year := some "March 2024", url := "", abstract := ""
         , item_type := "journalArticle", source := "Zotero" }] =
      Except.error "invalid literal for int() with base 10: 'March 2024'" :=
  ⟨(zotero_year_not_total _).2.1 "2024" 2024 rfl (by decide),
   (zotero_year_not_total _).2.2.1 "March 2024" rfl (by decide) (by decide)⟩

/-- C7: `retrieve_documents` is total over every backend outcome (it never
raises to its caller); on a backend error it returns exactly the keyword
algorithm over the fixed fixture set truncated to `top_k`, and on success it
returns the converted backend records. -/
theorem retrieve_documents_error_fallback :
    (∀ (e query : String) (k : Nat),
        retrieve_documents (Except.error e) query k =
          keywordFilter DocumentChunk.content DocumentChunk.title
            retrieverMockDocs query k) ∧
    (∀ (e query : String) (k : Nat),
        (retrieve_documents (Except.error e) query k).length ≤ k) ∧
    (∀ (rs : List SearchRecord) (query : String) (k : Nat),
        retrieve_documents (Except.ok rs) query k = rs.map recordToChunk) := by
  refine ⟨fun _ _ _ => rfl, fun e query k => ?_, fun _ _ _ => rfl⟩
  simp only [retrieve_documents, retriever_get_mock_documents, keywordFilter]
  exact List.length_take_le k _

end GravityChat
